import Mathlib

/-!
Shallow embedding of `generate_icons.py` (repository amegabosco/PDFreader).

The script reads `icon.svg` from the working directory, rasterizes it at five
fixed square sizes into PNG files, and packs the 16x16 and 32x32 PNGs into a
single `favicon.ico`.  External libraries (cairosvg's `svg2png`, Pillow's
`Image.open` / ICO `save`) are modelled abstractly: the rasterizer is a
parameter function from SVG content and requested dimensions to an optional
PNG, and the ICO save packs the primary image followed by the appended images.
The filesystem is an association list from path to file data; every library
call, file write and `print` is recorded in an event trace, and an uncaught
exception is modelled by the run returning `false` with the state reached so
far (writes and prints already performed remain).
-/

namespace GenIcons

/-- Abstract PNG data: cairosvg is asked for explicit output dimensions, so a
produced PNG carries its pixel width and height plus opaque payload bytes. -/
structure PngData where
  width : Nat
  height : Nat
  payload : List Nat
deriving DecidableEq, Repr

/-- Data stored at a path: the source SVG (opaque content bytes), a PNG, or an
ICO container embedding a list of images in file order. -/
inductive FileData where
  | svg (content : List Nat)
  | png (p : PngData)
  | ico (entries : List PngData)
deriving DecidableEq, Repr

/-- The working directory: an association list from filename to file data. -/
abbrev Fs := List (String × FileData)

/-- Read a file (`open` / what a library reads through a path). -/
def fsRead : Fs → String → Option FileData
  | [], _ => none
  | (q, d) :: rest, p => if q = p then some d else fsRead rest p

/-- Write (create or overwrite) a file, as `open(path, 'wb')` + `write` does. -/
def fsWrite : Fs → String → FileData → Fs
  | [], p, d => [(p, d)]
  | (q, e) :: rest, p, d =>
      if q = p then (p, d) :: rest else (q, e) :: fsWrite rest p d

/-- Model of `os.path.exists`. -/
def fsExists (fs : Fs) (p : String) : Bool :=
  (fsRead fs p).isSome

/-- Observable events of a run: a rasterizer invocation (with the output path
and the requested output_width/output_height), a file write, the Pillow ICO
save call, and a `print`. -/
inductive Event where
  | rasterCall (svgPath outPath : String) (width height : Nat)
  | fileWrite (path : String) (data : FileData)
  | icoCall (png16Path png32Path outPath : String)
  | printLine (msg : String)
deriving DecidableEq, Repr

/-- The external libraries: `cairosvg.svg2png` as a deterministic function of
the SVG content and the requested output dimensions; `none` models the library
raising an exception. -/
structure Libs where
  svg2png : List Nat → Nat → Nat → Option PngData

/-- Run state: the filesystem plus the trace of events so far. -/
structure St where
  fs : Fs
  trace : List Event
deriving DecidableEq, Repr

/-- Append a `print` to the trace. -/
def pr (s : St) (msg : String) : St :=
  { s with trace := s.trace ++ [Event.printLine msg] }

/-- Perform a file write, recording it in the trace. -/
def wr (s : St) (p : String) (d : FileData) : St :=
  { fs := fsWrite s.fs p d, trace := s.trace ++ [Event.fileWrite p d] }

/-- The `SIZES` table, in Python dict insertion order. -/
def SIZES : List (String × Nat) :=
  [("favicon-16x16.png", 16),
   ("favicon-32x32.png", 32),
   ("apple-touch-icon.png", 180),
   ("android-chrome-192x192.png", 192),
   ("android-chrome-512x512.png", 512)]

/-- The confirmation line printed after a PNG is generated. -/
def pngMsg (fn : String) (sz : Nat) : String :=
  "✓ Generated " ++ fn ++ " (" ++ toString sz ++ "x" ++ toString sz ++ ")"

/-- The confirmation line printed after the ICO is generated. -/
def icoMsg (fn : String) : String :=
  "✓ Generated " ++ fn

/-- A summary line of the final listing. -/
def listMsg (fn : String) : String :=
  "  - " ++ fn

/-- Model of `generate_png_from_svg`: rasterize the SVG at `size` x `size` and write the
result to `output_path`.  The rasterizer call happens first; if the source file
is missing / not an SVG, or the rasterizer fails, the exception propagates
(`false`) and no file is written for this size. -/
def generate_png_from_svg (libs : Libs) (s : St)
    (svg_path output_path : String) (size : Nat) : St × Bool :=
  let s := { s with
    trace := s.trace ++ [Event.rasterCall svg_path output_path size size] }
  match fsRead s.fs svg_path with
  | some (FileData.svg c) =>
      match libs.svg2png c size size with
      | some p =>
          let s := wr s output_path (FileData.png p)
          let s := pr s (pngMsg output_path size)
          (s, true)
      | none => (s, false)
  | _ => (s, false)

/-- Model of `Image.open`: load an image from a path; fails (exception) if the file is
missing or is not a PNG. -/
def imageOpen (fs : Fs) (p : String) : Option PngData :=
  match fsRead fs p with
  | some (FileData.png d) => some d
  | _ => none

/-- Model of `generate_ico`: open both PNGs and save them as one ICO, the primary image
(`png_16_path`) first and the appended image (`png_32_path`) second. -/
def generate_ico (s : St) (png_16_path png_32_path output_path : String) :
    St × Bool :=
  match imageOpen s.fs png_16_path with
  | none => (s, false)
  | some img_16 =>
      match imageOpen s.fs png_32_path with
      | none => (s, false)
      | some img_32 =>
          let s := { s with
            trace := s.trace ++ [Event.icoCall png_16_path png_32_path output_path] }
          let s := wr s output_path (FileData.ico [img_16, img_32])
          let s := pr s (icoMsg output_path)
          (s, true)

/-- The `for filename, size in SIZES.items()` loop; a failing iteration aborts
the rest of the run. -/
def genLoop (libs : Libs) : St → List (String × Nat) → St × Bool
  | s, [] => (s, true)
  | s, (fn, sz) :: rest =>
      match generate_png_from_svg libs s "icon.svg" fn sz with
      | (s', true) => genLoop libs s' rest
      | (s', false) => (s', false)

/-- Model of `main`: existence check on `icon.svg`, the size loop, the ICO packing, and
the unconditional summary listing. -/
def main (libs : Libs) (s0 : St) : St × Bool :=
  let svg_path := "icon.svg"
  if fsExists s0.fs svg_path then
    let s := pr s0 "Generating icons..."
    match genLoop libs s SIZES with
    | (s, true) =>
        match generate_ico s "favicon-16x16.png" "favicon-32x32.png" "favicon.ico" with
        | (s, true) =>
            let s := pr s "\n✅ All icons generated successfully!"
            let s := pr s "\nGenerated files:"
            let s := (SIZES.map Prod.fst).foldl (fun s fn => pr s (listMsg fn)) s
            let s := pr s (listMsg "favicon.ico")
            (s, true)
        | (s, false) => (s, false)
    | (s, false) => (s, false)
  else
    (pr s0 ("Error: " ++ svg_path ++ " not found!"), true)

/-- Paths of the files written during a run, in write order. -/
def writePaths (t : List Event) : List String :=
  t.filterMap fun e =>
    match e with
    | Event.fileWrite p _ => some p
    | _ => none

/-- The writes of a run: path paired with the data written, in write order. -/
def writesOf (t : List Event) : List (String × FileData) :=
  t.filterMap fun e =>
    match e with
    | Event.fileWrite p d => some (p, d)
    | _ => none

/-- Rasterizer invocations of a run: output path and requested size. -/
def rasterCallsOf (t : List Event) : List (String × Nat) :=
  t.filterMap fun e =>
    match e with
    | Event.rasterCall _ out w _ => some (out, w)
    | _ => none

/-- ICO save invocations of a run (output paths). -/
def icoCallsOf (t : List Event) : List String :=
  t.filterMap fun e =>
    match e with
    | Event.icoCall _ _ out => some out
    | _ => none

/-- The lines printed during a run, in print order. -/
def printsOf (t : List Event) : List String :=
  t.filterMap fun e =>
    match e with
    | Event.printLine m => some m
    | _ => none

theorem fsRead_fsWrite_self (fs : Fs) (p : String) (d : FileData) :
    fsRead (fsWrite fs p d) p = some d := by
  induction fs with
  | nil => simp [fsWrite, fsRead]
  | cons hd tl ih =>
      obtain ⟨q, e⟩ := hd
      by_cases h : q = p
      · simp [fsWrite, fsRead, h]
      · simp [fsWrite, fsRead, h, ih]

theorem fsRead_fsWrite_other (fs : Fs) (p q : String) (d : FileData)
    (h : ¬ q = p) : fsRead (fsWrite fs p d) q = fsRead fs q := by
  have hpq : ¬ p = q := fun hh => h hh.symm
  induction fs with
  | nil => simp [fsWrite, fsRead, hpq]
  | cons hd tl ih =>
      obtain ⟨r, e⟩ := hd
      by_cases hr : r = p
      · subst hr
        simp [fsWrite, fsRead, hpq]
      · simp [fsWrite, fsRead, hr, ih]

theorem fsWrite_cancel (fs : Fs) (p : String) (d : FileData)
    (h : fsRead fs p = some d) : fsWrite fs p d = fs := by
  induction fs with
  | nil => simp [fsRead] at h
  | cons hd tl ih =>
      obtain ⟨q, e⟩ := hd
      by_cases hq : q = p
      · subst hq
        rw [fsRead, if_pos rfl] at h
        cases h
        simp [fsWrite]
      · rw [fsRead, if_neg hq] at h
        simp [fsWrite, hq, ih h]

/-- The full event trace of a successful run, given the five rasterizer
results. -/
def runTrace (p16 p32 p180 p192 p512 : PngData) : List Event :=
  [Event.printLine "Generating icons...",
   Event.rasterCall "icon.svg" "favicon-16x16.png" 16 16,
   Event.fileWrite "favicon-16x16.png" (FileData.png p16),
   Event.printLine (pngMsg "favicon-16x16.png" 16),
   Event.rasterCall "icon.svg" "favicon-32x32.png" 32 32,
   Event.fileWrite "favicon-32x32.png" (FileData.png p32),
   Event.printLine (pngMsg "favicon-32x32.png" 32),
   Event.rasterCall "icon.svg" "apple-touch-icon.png" 180 180,
   Event.fileWrite "apple-touch-icon.png" (FileData.png p180),
   Event.printLine (pngMsg "apple-touch-icon.png" 180),
   Event.rasterCall "icon.svg" "android-chrome-192x192.png" 192 192,
   Event.fileWrite "android-chrome-192x192.png" (FileData.png p192),
   Event.printLine (pngMsg "android-chrome-192x192.png" 192),
   Event.rasterCall "icon.svg" "android-chrome-512x512.png" 512 512,
   Event.fileWrite "android-chrome-512x512.png" (FileData.png p512),
   Event.printLine (pngMsg "android-chrome-512x512.png" 512),
   Event.icoCall "favicon-16x16.png" "favicon-32x32.png" "favicon.ico",
   Event.fileWrite "favicon.ico" (FileData.ico [p16, p32]),
   Event.printLine (icoMsg "favicon.ico"),
   Event.printLine "\n✅ All icons generated successfully!",
   Event.printLine "\nGenerated files:",
   Event.printLine (listMsg "favicon-16x16.png"),
   Event.printLine (listMsg "favicon-32x32.png"),
   Event.printLine (listMsg "apple-touch-icon.png"),
   Event.printLine (listMsg "android-chrome-192x192.png"),
   Event.printLine (listMsg "android-chrome-512x512.png"),
   Event.printLine (listMsg "favicon.ico")]

/-- The filesystem after a successful run starting from `fs0`. -/
def runFs (fs0 : Fs) (p16 p32 p180 p192 p512 : PngData) : Fs :=
  fsWrite (fsWrite (fsWrite (fsWrite (fsWrite (fsWrite fs0
    "favicon-16x16.png" (FileData.png p16))
    "favicon-32x32.png" (FileData.png p32))
    "apple-touch-icon.png" (FileData.png p180))
    "android-chrome-192x192.png" (FileData.png p192))
    "android-chrome-512x512.png" (FileData.png p512))
    "favicon.ico" (FileData.ico [p16, p32])

/-- Characterization of a successful run: if `icon.svg` holds SVG content `c`
and the rasterizer succeeds at all five sizes, `main` returns normally with the
explicit trace and filesystem. -/
theorem main_spec (libs : Libs) (fs0 : Fs) (c : List Nat)
    (p16 p32 p180 p192 p512 : PngData)
    (hsvg : fsRead fs0 "icon.svg" = some (FileData.svg c))
    (h16 : libs.svg2png c 16 16 = some p16)
    (h32 : libs.svg2png c 32 32 = some p32)
    (h180 : libs.svg2png c 180 180 = some p180)
    (h192 : libs.svg2png c 192 192 = some p192)
    (h512 : libs.svg2png c 512 512 = some p512) :
    main libs ⟨fs0, []⟩ =
      (⟨runFs fs0 p16 p32 p180 p192 p512, runTrace p16 p32 p180 p192 p512⟩,
       true) := by
  simp [main, genLoop, generate_png_from_svg, generate_ico, imageOpen, pr, wr,
    SIZES, fsExists, runFs, runTrace, hsvg, h16, h32, h180, h192, h512,
    fsRead_fsWrite_other, fsRead_fsWrite_self]

theorem runFs_read_16 (fs0 : Fs) (p16 p32 p180 p192 p512 : PngData) :
    fsRead (runFs fs0 p16 p32 p180 p192 p512) "favicon-16x16.png" =
      some (FileData.png p16) := by
  simp [runFs, fsRead_fsWrite_self, fsRead_fsWrite_other]

theorem runFs_read_32 (fs0 : Fs) (p16 p32 p180 p192 p512 : PngData) :
    fsRead (runFs fs0 p16 p32 p180 p192 p512) "favicon-32x32.png" =
      some (FileData.png p32) := by
  simp [runFs, fsRead_fsWrite_self, fsRead_fsWrite_other]

theorem runFs_read_180 (fs0 : Fs) (p16 p32 p180 p192 p512 : PngData) :
    fsRead (runFs fs0 p16 p32 p180 p192 p512) "apple-touch-icon.png" =
      some (FileData.png p180) := by
  simp [runFs, fsRead_fsWrite_self, fsRead_fsWrite_other]

theorem runFs_read_192 (fs0 : Fs) (p16 p32 p180 p192 p512 : PngData) :
    fsRead (runFs fs0 p16 p32 p180 p192 p512) "android-chrome-192x192.png" =
      some (FileData.png p192) := by
  simp [runFs, fsRead_fsWrite_self, fsRead_fsWrite_other]

theorem runFs_read_512 (fs0 : Fs) (p16 p32 p180 p192 p512 : PngData) :
    fsRead (runFs fs0 p16 p32 p180 p192 p512) "android-chrome-512x512.png" =
      some (FileData.png p512) := by
  simp [runFs, fsRead_fsWrite_self, fsRead_fsWrite_other]

theorem runFs_read_ico (fs0 : Fs) (p16 p32 p180 p192 p512 : PngData) :
    fsRead (runFs fs0 p16 p32 p180 p192 p512) "favicon.ico" =
      some (FileData.ico [p16, p32]) := by
  simp [runFs, fsRead_fsWrite_self]

theorem runFs_read_svg (fs0 : Fs) (p16 p32 p180 p192 p512 : PngData) :
    fsRead (runFs fs0 p16 p32 p180 p192 p512) "icon.svg" =
      fsRead fs0 "icon.svg" := by
  simp [runFs, fsRead_fsWrite_other]

/-- A well-behaved rasterizer: always succeeds and honors the requested output
dimensions (used to instantiate the theorems at concrete inputs). -/
def goodLibs : Libs :=
  { svg2png := fun c w h => some ⟨w, h, c⟩ }

/-- A rasterizer that always raises (e.g. the source SVG is malformed). -/
def failLibs : Libs :=
  { svg2png := fun _ _ _ => none }

/-- A rasterizer that succeeds up to 32 pixels and raises beyond. -/
def flakyLibs : Libs :=
  { svg2png := fun c w h => if w ≤ 32 then some ⟨w, h, c⟩ else none }

/-- C1: if `icon.svg` exists and every rasterization (and the packing) call
succeeds, the run writes exactly the six literal filenames, and — given the
rasterizer honors its requested output dimensions — every generated PNG is
square with width and height equal to its `SIZES` table entry. -/
theorem C1_six_square_outputs (libs : Libs) (fs0 : Fs) (c : List Nat)
    (p16 p32 p180 p192 p512 : PngData)
    (hsvg : fsRead fs0 "icon.svg" = some (FileData.svg c))
    (h16 : libs.svg2png c 16 16 = some p16)
    (h32 : libs.svg2png c 32 32 = some p32)
    (h180 : libs.svg2png c 180 180 = some p180)
    (h192 : libs.svg2png c 192 192 = some p192)
    (h512 : libs.svg2png c 512 512 = some p512)
    (hdims : ∀ cc w h p, libs.svg2png cc w h = some p →
      p.width = w ∧ p.height = h) :
    writesOf (main libs ⟨fs0, []⟩).1.trace =
      [("favicon-16x16.png", FileData.png p16),
       ("favicon-32x32.png", FileData.png p32),
       ("apple-touch-icon.png", FileData.png p180),
       ("android-chrome-192x192.png", FileData.png p192),
       ("android-chrome-512x512.png", FileData.png p512),
       ("favicon.ico", FileData.ico [p16, p32])] ∧
    p16.width = 16 ∧ p16.height = 16 ∧
    p32.width = 32 ∧ p32.height = 32 ∧
    p180.width = 180 ∧ p180.height = 180 ∧
    p192.width = 192 ∧ p192.height = 192 ∧
    p512.width = 512 ∧ p512.height = 512 := by
  rw [main_spec libs fs0 c p16 p32 p180 p192 p512 hsvg h16 h32 h180 h192 h512]
  obtain ⟨w16, v16⟩ := hdims c 16 16 p16 h16
  obtain ⟨w32, v32⟩ := hdims c 32 32 p32 h32
  obtain ⟨w180, v180⟩ := hdims c 180 180 p180 h180
  obtain ⟨w192, v192⟩ := hdims c 192 192 p192 h192
  obtain ⟨w512, v512⟩ := hdims c 512 512 p512 h512
  exact ⟨by simp [writesOf, runTrace], w16, v16, w32, v32, w180, v180,
    w192, v192, w512, v512⟩

theorem C1_witness :
    writesOf (main goodLibs ⟨[("icon.svg", FileData.svg [7])], []⟩).1.trace =
      [("favicon-16x16.png", FileData.png ⟨16, 16, [7]⟩),
       ("favicon-32x32.png", FileData.png ⟨32, 32, [7]⟩),
       ("apple-touch-icon.png", FileData.png ⟨180, 180, [7]⟩),
       ("android-chrome-192x192.png", FileData.png ⟨192, 192, [7]⟩),
       ("android-chrome-512x512.png", FileData.png ⟨512, 512, [7]⟩),
       ("favicon.ico", FileData.ico [⟨16, 16, [7]⟩, ⟨32, 32, [7]⟩])] :=
  (C1_six_square_outputs goodLibs [("icon.svg", FileData.svg [7])] [7]
    ⟨16, 16, [7]⟩ ⟨32, 32, [7]⟩ ⟨180, 180, [7]⟩ ⟨192, 192, [7]⟩ ⟨512, 512, [7]⟩
    rfl rfl rfl rfl rfl rfl
    (fun cc w h p hp => by cases hp; exact ⟨rfl, rfl⟩)).1

/-- C2: if `icon.svg` is absent, the run writes no files, prints exactly the
error message, leaves the filesystem untouched, and returns normally. -/
theorem C2_missing_input (libs : Libs) (fs0 : Fs)
    (h : fsRead fs0 "icon.svg" = none) :
    main libs ⟨fs0, []⟩ =
      (⟨fs0, [Event.printLine "Error: icon.svg not found!"]⟩, true) ∧
    writesOf (main libs ⟨fs0, []⟩).1.trace = [] := by
  have hm : main libs ⟨fs0, []⟩ =
      (⟨fs0, [Event.printLine "Error: icon.svg not found!"]⟩, true) := by
    simp [main, fsExists, pr, h]
  exact ⟨hm, by rw [hm]; simp [writesOf]⟩

theorem C2_witness :
    main goodLibs ⟨[("readme.txt", FileData.svg [])], []⟩ =
      (⟨[("readme.txt", FileData.svg [])],
        [Event.printLine "Error: icon.svg not found!"]⟩, true) :=
  (C2_missing_input goodLibs [("readme.txt", FileData.svg [])] rfl).1

/-- C3 counterexample: a run in which `icon.svg` exists but the rasterizer
raises on the first size performs only one rasterization (not one per table
entry), never reaches the ICO packing, and prints no summary — refuting the
claim as stated for arbitrary runs with `icon.svg` present. -/
theorem C3_counterexample :
    fsExists [("icon.svg", FileData.svg [])] "icon.svg" = true ∧
    rasterCallsOf
      (main failLibs ⟨[("icon.svg", FileData.svg [])], []⟩).1.trace =
      [("favicon-16x16.png", 16)] ∧
    icoCallsOf (main failLibs ⟨[("icon.svg", FileData.svg [])], []⟩).1.trace
      = [] ∧
    printsOf (main failLibs ⟨[("icon.svg", FileData.svg [])], []⟩).1.trace
      = ["Generating icons..."] := by
  decide

/-- C3 (amended): if `icon.svg` exists and every rasterization call succeeds,
the run performs exactly one rasterization per table entry in table order
(16, 32, 180, 192, 512), then the ICO packing exactly once, and only then the
summary — the full trace is exactly `runTrace`, whose events occur in that
order. -/
theorem C3_amended_order (libs : Libs) (fs0 : Fs) (c : List Nat)
    (p16 p32 p180 p192 p512 : PngData)
    (hsvg : fsRead fs0 "icon.svg" = some (FileData.svg c))
    (h16 : libs.svg2png c 16 16 = some p16)
    (h32 : libs.svg2png c 32 32 = some p32)
    (h180 : libs.svg2png c 180 180 = some p180)
    (h192 : libs.svg2png c 192 192 = some p192)
    (h512 : libs.svg2png c 512 512 = some p512) :
    (main libs ⟨fs0, []⟩).1.trace = runTrace p16 p32 p180 p192 p512 ∧
    rasterCallsOf (main libs ⟨fs0, []⟩).1.trace =
      [("favicon-16x16.png", 16), ("favicon-32x32.png", 32),
       ("apple-touch-icon.png", 180), ("android-chrome-192x192.png", 192),
       ("android-chrome-512x512.png", 512)] ∧
    icoCallsOf (main libs ⟨fs0, []⟩).1.trace = ["favicon.ico"] ∧
    printsOf (main libs ⟨fs0, []⟩).1.trace ≠ [] ∧
    (printsOf (main libs ⟨fs0, []⟩).1.trace).getLast? =
      some (listMsg "favicon.ico") := by
  rw [main_spec libs fs0 c p16 p32 p180 p192 p512 hsvg h16 h32 h180 h192 h512]
  refine ⟨rfl, by simp [rasterCallsOf, runTrace], by simp [icoCallsOf, runTrace],
    by simp [printsOf, runTrace], by simp [printsOf, runTrace]⟩

theorem C3_witness :
    rasterCallsOf
      (main goodLibs ⟨[("icon.svg", FileData.svg [3])], []⟩).1.trace =
      [("favicon-16x16.png", 16), ("favicon-32x32.png", 32),
       ("apple-touch-icon.png", 180), ("android-chrome-192x192.png", 192),
       ("android-chrome-512x512.png", 512)] :=
  (C3_amended_order goodLibs [("icon.svg", FileData.svg [3])] [3]
    ⟨16, 16, [3]⟩ ⟨32, 32, [3]⟩ ⟨180, 180, [3]⟩ ⟨192, 192, [3]⟩ ⟨512, 512, [3]⟩
    rfl rfl rfl rfl rfl rfl).2.1

/-- C4: on a successful run, `favicon.ico` holds exactly the two images read
back from `favicon-16x16.png` and `favicon-32x32.png`, which (by the
rasterizer's dimension contract) are 16x16 and 32x32. -/
theorem C4_ico_contents (libs : Libs) (fs0 : Fs) (c : List Nat)
    (p16 p32 p180 p192 p512 : PngData)
    (hsvg : fsRead fs0 "icon.svg" = some (FileData.svg c))
    (h16 : libs.svg2png c 16 16 = some p16)
    (h32 : libs.svg2png c 32 32 = some p32)
    (h180 : libs.svg2png c 180 180 = some p180)
    (h192 : libs.svg2png c 192 192 = some p192)
    (h512 : libs.svg2png c 512 512 = some p512)
    (hdims : ∀ cc w h p, libs.svg2png cc w h = some p →
      p.width = w ∧ p.height = h) :
    fsRead (main libs ⟨fs0, []⟩).1.fs "favicon.ico" =
      some (FileData.ico [p16, p32]) ∧
    fsRead (main libs ⟨fs0, []⟩).1.fs "favicon-16x16.png" =
      some (FileData.png p16) ∧
    fsRead (main libs ⟨fs0, []⟩).1.fs "favicon-32x32.png" =
      some (FileData.png p32) ∧
    p16.width = 16 ∧ p16.height = 16 ∧ p32.width = 32 ∧ p32.height = 32 := by
  rw [main_spec libs fs0 c p16 p32 p180 p192 p512 hsvg h16 h32 h180 h192 h512]
  obtain ⟨w16, v16⟩ := hdims c 16 16 p16 h16
  obtain ⟨w32, v32⟩ := hdims c 32 32 p32 h32
  exact ⟨runFs_read_ico fs0 p16 p32 p180 p192 p512,
    runFs_read_16 fs0 p16 p32 p180 p192 p512,
    runFs_read_32 fs0 p16 p32 p180 p192 p512, w16, v16, w32, v32⟩

theorem C4_witness :
    fsRead (main goodLibs ⟨[("icon.svg", FileData.svg [9])], []⟩).1.fs
      "favicon.ico" =
      some (FileData.ico [⟨16, 16, [9]⟩, ⟨32, 32, [9]⟩]) :=
  (C4_ico_contents goodLibs [("icon.svg", FileData.svg [9])] [9]
    ⟨16, 16, [9]⟩ ⟨32, 32, [9]⟩ ⟨180, 180, [9]⟩ ⟨192, 192, [9]⟩ ⟨512, 512, [9]⟩
    rfl rfl rfl rfl rfl rfl
    (fun cc w h p hp => by cases hp; exact ⟨rfl, rfl⟩)).1

/-- C5 counterexample: `icon.svg` exists but the first rasterization raises;
the summary is then not printed at all, refuting "printed unconditionally,
regardless of whether each generation step succeeded" as stated. -/
theorem C5_counterexample :
    fsExists [("icon.svg", FileData.svg [])] "icon.svg" = true ∧
    (main failLibs ⟨[("icon.svg", FileData.svg [])], []⟩).2 = false ∧
    ¬ Event.printLine (listMsg "favicon.ico") ∈
        (main failLibs ⟨[("icon.svg", FileData.svg [])], []⟩).1.trace ∧
    ¬ Event.printLine "\nGenerated files:" ∈
        (main failLibs ⟨[("icon.svg", FileData.svg [])], []⟩).1.trace := by
  decide

/-- C5 (amended): whenever `icon.svg` exists and every generation call returns
without raising, the summary listing all six expected filenames is printed —
with no check that the written files are valid: the statement holds for
arbitrary rasterizer outputs `p16 .. p512`, however malformed. -/
theorem C5_amended_summary (libs : Libs) (fs0 : Fs) (c : List Nat)
    (p16 p32 p180 p192 p512 : PngData)
    (hsvg : fsRead fs0 "icon.svg" = some (FileData.svg c))
    (h16 : libs.svg2png c 16 16 = some p16)
    (h32 : libs.svg2png c 32 32 = some p32)
    (h180 : libs.svg2png c 180 180 = some p180)
    (h192 : libs.svg2png c 192 192 = some p192)
    (h512 : libs.svg2png c 512 512 = some p512) :
    printsOf (main libs ⟨fs0, []⟩).1.trace =
      ["Generating icons...",
       pngMsg "favicon-16x16.png" 16,
       pngMsg "favicon-32x32.png" 32,
       pngMsg "apple-touch-icon.png" 180,
       pngMsg "android-chrome-192x192.png" 192,
       pngMsg "android-chrome-512x512.png" 512,
       icoMsg "favicon.ico",
       "\n✅ All icons generated successfully!",
       "\nGenerated files:",
       listMsg "favicon-16x16.png",
       listMsg "favicon-32x32.png",
       listMsg "apple-touch-icon.png",
       listMsg "android-chrome-192x192.png",
       listMsg "android-chrome-512x512.png",
       listMsg "favicon.ico"] := by
  rw [main_spec libs fs0 c p16 p32 p180 p192 p512 hsvg h16 h32 h180 h192 h512]
  simp [printsOf, runTrace]

theorem C5_witness :
    printsOf
      (main goodLibs ⟨[("icon.svg", FileData.svg [0, 0])], []⟩).1.trace =
      ["Generating icons...",
       pngMsg "favicon-16x16.png" 16,
       pngMsg "favicon-32x32.png" 32,
       pngMsg "apple-touch-icon.png" 180,
       pngMsg "android-chrome-192x192.png" 192,
       pngMsg "android-chrome-512x512.png" 512,
       icoMsg "favicon.ico",
       "\n✅ All icons generated successfully!",
       "\nGenerated files:",
       listMsg "favicon-16x16.png",
       listMsg "favicon-32x32.png",
       listMsg "apple-touch-icon.png",
       listMsg "android-chrome-192x192.png",
       listMsg "android-chrome-512x512.png",
       listMsg "favicon.ico"] :=
  C5_amended_summary goodLibs [("icon.svg", FileData.svg [0, 0])] [0, 0]
    ⟨16, 16, [0, 0]⟩ ⟨32, 32, [0, 0]⟩ ⟨180, 180, [0, 0]⟩ ⟨192, 192, [0, 0]⟩
    ⟨512, 512, [0, 0]⟩ rfl rfl rfl rfl rfl rfl

/-- C9: for any two runs with `icon.svg` present and all calls succeeding —
possibly with different rasterizers, different filesystems and different SVG
content — the written paths and the printed lines coincide, and the written
paths are exactly the static `SIZES` names followed by `favicon.ico`. -/
theorem C9_outputs_content_independent
    (libs1 libs2 : Libs) (fs1 fs2 : Fs) (c1 c2 : List Nat)
    (q16 q32 q180 q192 q512 r16 r32 r180 r192 r512 : PngData)
    (hsvg1 : fsRead fs1 "icon.svg" = some (FileData.svg c1))
    (g16 : libs1.svg2png c1 16 16 = some q16)
    (g32 : libs1.svg2png c1 32 32 = some q32)
    (g180 : libs1.svg2png c1 180 180 = some q180)
    (g192 : libs1.svg2png c1 192 192 = some q192)
    (g512 : libs1.svg2png c1 512 512 = some q512)
    (hsvg2 : fsRead fs2 "icon.svg" = some (FileData.svg c2))
    (k16 : libs2.svg2png c2 16 16 = some r16)
    (k32 : libs2.svg2png c2 32 32 = some r32)
    (k180 : libs2.svg2png c2 180 180 = some r180)
    (k192 : libs2.svg2png c2 192 192 = some r192)
    (k512 : libs2.svg2png c2 512 512 = some r512) :
    writePaths (main libs1 ⟨fs1, []⟩).1.trace =
      SIZES.map Prod.fst ++ ["favicon.ico"] ∧
    writePaths (main libs2 ⟨fs2, []⟩).1.trace =
      SIZES.map Prod.fst ++ ["favicon.ico"] ∧
    writePaths (main libs1 ⟨fs1, []⟩).1.trace =
      writePaths (main libs2 ⟨fs2, []⟩).1.trace ∧
    printsOf (main libs1 ⟨fs1, []⟩).1.trace =
      printsOf (main libs2 ⟨fs2, []⟩).1.trace := by
  rw [main_spec libs1 fs1 c1 q16 q32 q180 q192 q512 hsvg1 g16 g32 g180 g192 g512,
    main_spec libs2 fs2 c2 r16 r32 r180 r192 r512 hsvg2 k16 k32 k180 k192 k512]
  exact ⟨by simp [writePaths, runTrace, SIZES], by simp [writePaths, runTrace, SIZES],
    by simp [writePaths, runTrace], by simp [printsOf, runTrace]⟩

theorem C9_witness :
    writePaths
      (main goodLibs ⟨[("icon.svg", FileData.svg [1])], []⟩).1.trace =
      writePaths
        (main goodLibs ⟨[("icon.svg", FileData.svg [2, 3]),
          ("other.txt", FileData.svg [])], []⟩).1.trace :=
  (C9_outputs_content_independent goodLibs goodLibs
    [("icon.svg", FileData.svg [1])]
    [("icon.svg", FileData.svg [2, 3]), ("other.txt", FileData.svg [])]
    [1] [2, 3]
    ⟨16, 16, [1]⟩ ⟨32, 32, [1]⟩ ⟨180, 180, [1]⟩ ⟨192, 192, [1]⟩ ⟨512, 512, [1]⟩
    ⟨16, 16, [2, 3]⟩ ⟨32, 32, [2, 3]⟩ ⟨180, 180, [2, 3]⟩ ⟨192, 192, [2, 3]⟩
    ⟨512, 512, [2, 3]⟩
    rfl rfl rfl rfl rfl rfl rfl rfl rfl rfl rfl rfl).2.2.1

/-- C10: in the generated `favicon.ico` the embedded images are ordered with
the image loaded from `favicon-16x16.png` (16 wide) first — it is the primary
image of the save call — and the appended 32-wide image second. -/
theorem C10_ico_order (libs : Libs) (fs0 : Fs) (c : List Nat)
    (p16 p32 p180 p192 p512 : PngData)
    (hsvg : fsRead fs0 "icon.svg" = some (FileData.svg c))
    (h16 : libs.svg2png c 16 16 = some p16)
    (h32 : libs.svg2png c 32 32 = some p32)
    (h180 : libs.svg2png c 180 180 = some p180)
    (h192 : libs.svg2png c 192 192 = some p192)
    (h512 : libs.svg2png c 512 512 = some p512)
    (hdims : ∀ cc w h p, libs.svg2png cc w h = some p →
      p.width = w ∧ p.height = h) :
    ∃ entries : List PngData,
      fsRead (main libs ⟨fs0, []⟩).1.fs "favicon.ico" =
        some (FileData.ico entries) ∧
      entries.length = 2 ∧
      entries.head? = some p16 ∧
      entries.getLast? = some p32 ∧
      fsRead (main libs ⟨fs0, []⟩).1.fs "favicon-16x16.png" =
        some (FileData.png p16) ∧
      fsRead (main libs ⟨fs0, []⟩).1.fs "favicon-32x32.png" =
        some (FileData.png p32) ∧
      p16.width = 16 ∧ p32.width = 32 := by
  rw [main_spec libs fs0 c p16 p32 p180 p192 p512 hsvg h16 h32 h180 h192 h512]
  exact ⟨[p16, p32], runFs_read_ico fs0 p16 p32 p180 p192 p512, rfl, rfl, rfl,
    runFs_read_16 fs0 p16 p32 p180 p192 p512,
    runFs_read_32 fs0 p16 p32 p180 p192 p512,
    (hdims c 16 16 p16 h16).1, (hdims c 32 32 p32 h32).1⟩

theorem C10_witness :
    ∃ entries : List PngData,
      fsRead (main goodLibs ⟨[("icon.svg", FileData.svg [4])], []⟩).1.fs
          "favicon.ico" =
        some (FileData.ico entries) ∧
      entries.length = 2 ∧
      entries.head? = some (⟨16, 16, [4]⟩ : PngData) ∧
      entries.getLast? = some (⟨32, 32, [4]⟩ : PngData) ∧
      fsRead (main goodLibs ⟨[("icon.svg", FileData.svg [4])], []⟩).1.fs
          "favicon-16x16.png" =
        some (FileData.png ⟨16, 16, [4]⟩) ∧
      fsRead (main goodLibs ⟨[("icon.svg", FileData.svg [4])], []⟩).1.fs
          "favicon-32x32.png" =
        some (FileData.png ⟨32, 32, [4]⟩) ∧
      (⟨16, 16, [4]⟩ : PngData).width = 16 ∧
      (⟨32, 32, [4]⟩ : PngData).width = 32 :=
  C10_ico_order goodLibs [("icon.svg", FileData.svg [4])] [4]
    ⟨16, 16, [4]⟩ ⟨32, 32, [4]⟩ ⟨180, 180, [4]⟩ ⟨192, 192, [4]⟩ ⟨512, 512, [4]⟩
    rfl rfl rfl rfl rfl rfl
    (fun cc w h p hp => by cases hp; exact ⟨rfl, rfl⟩)

/-- Re-running leaves the final filesystem unchanged: writing back the data a
successful run already stored is the identity. -/
theorem runFs_runFs (fs0 : Fs) (p16 p32 p180 p192 p512 : PngData) :
    runFs (runFs fs0 p16 p32 p180 p192 p512) p16 p32 p180 p192 p512 =
      runFs fs0 p16 p32 p180 p192 p512 := by
  have e16 := runFs_read_16 fs0 p16 p32 p180 p192 p512
  have e32 := runFs_read_32 fs0 p16 p32 p180 p192 p512
  have e180 := runFs_read_180 fs0 p16 p32 p180 p192 p512
  have e192 := runFs_read_192 fs0 p16 p32 p180 p192 p512
  have e512 := runFs_read_512 fs0 p16 p32 p180 p192 p512
  have eico := runFs_read_ico fs0 p16 p32 p180 p192 p512
  conv_lhs => rw [runFs]
  rw [fsWrite_cancel _ _ _ e16, fsWrite_cancel _ _ _ e32,
    fsWrite_cancel _ _ _ e180, fsWrite_cancel _ _ _ e192,
    fsWrite_cancel _ _ _ e512, fsWrite_cancel _ _ _ eico]

/-- C6: with a deterministic rasterizer (the model's rasterizer is a pure
function), running `main` a second time on the filesystem a successful first
run produced overwrites each output with identical content: the writes of the
two runs are equal pairs of path and data, the second run also succeeds, and
the filesystem is unchanged by the second run. -/
theorem C6_idempotent (libs : Libs) (fs0 : Fs) (c : List Nat)
    (p16 p32 p180 p192 p512 : PngData)
    (hsvg : fsRead fs0 "icon.svg" = some (FileData.svg c))
    (h16 : libs.svg2png c 16 16 = some p16)
    (h32 : libs.svg2png c 32 32 = some p32)
    (h180 : libs.svg2png c 180 180 = some p180)
    (h192 : libs.svg2png c 192 192 = some p192)
    (h512 : libs.svg2png c 512 512 = some p512) :
    (main libs ⟨(main libs ⟨fs0, []⟩).1.fs, []⟩).1.fs =
      (main libs ⟨fs0, []⟩).1.fs ∧
    writesOf (main libs ⟨(main libs ⟨fs0, []⟩).1.fs, []⟩).1.trace =
      writesOf (main libs ⟨fs0, []⟩).1.trace ∧
    (main libs ⟨(main libs ⟨fs0, []⟩).1.fs, []⟩).2 = true := by
  have h1 := main_spec libs fs0 c p16 p32 p180 p192 p512 hsvg h16 h32 h180
    h192 h512
  have hsvg' : fsRead (runFs fs0 p16 p32 p180 p192 p512) "icon.svg" =
      some (FileData.svg c) := by
    rw [runFs_read_svg, hsvg]
  have h2 := main_spec libs (runFs fs0 p16 p32 p180 p192 p512) c
    p16 p32 p180 p192 p512 hsvg' h16 h32 h180 h192 h512
  rw [h1]
  refine ⟨?_, ?_, ?_⟩
  · show (main libs ⟨runFs fs0 p16 p32 p180 p192 p512, []⟩).1.fs = _
    rw [h2]
    exact runFs_runFs fs0 p16 p32 p180 p192 p512
  · show writesOf (main libs ⟨runFs fs0 p16 p32 p180 p192 p512, []⟩).1.trace = _
    rw [h2]
  · show (main libs ⟨runFs fs0 p16 p32 p180 p192 p512, []⟩).2 = true
    rw [h2]

theorem C6_witness :
    (main goodLibs
        ⟨(main goodLibs ⟨[("icon.svg", FileData.svg [8])], []⟩).1.fs,
         []⟩).1.fs =
      (main goodLibs ⟨[("icon.svg", FileData.svg [8])], []⟩).1.fs :=
  (C6_idempotent goodLibs [("icon.svg", FileData.svg [8])] [8]
    ⟨16, 16, [8]⟩ ⟨32, 32, [8]⟩ ⟨180, 180, [8]⟩ ⟨192, 192, [8]⟩ ⟨512, 512, [8]⟩
    rfl rfl rfl rfl rfl rfl).1

/-- The events of one (successful or failing) iteration of the size loop. -/
def entryEvents (libs : Libs) (c : List Nat) (q : String × Nat) : List Event :=
  match libs.svg2png c q.2 q.2 with
  | some p => [Event.rasterCall "icon.svg" q.1 q.2 q.2,
               Event.fileWrite q.1 (FileData.png p),
               Event.printLine (pngMsg q.1 q.2)]
  | none => [Event.rasterCall "icon.svg" q.1 q.2 q.2]

/-- The filesystem effect of one iteration of the size loop. -/
def entryWrite (libs : Libs) (c : List Nat) (fs : Fs) (q : String × Nat) : Fs :=
  match libs.svg2png c q.2 q.2 with
  | some p => fsWrite fs q.1 (FileData.png p)
  | none => fs

theorem writePaths_printLine_cons (m : String) (t : List Event) :
    writePaths (Event.printLine m :: t) = writePaths t := by
  simp [writePaths]

theorem writePaths_append (t1 t2 : List Event) :
    writePaths (t1 ++ t2) = writePaths t1 ++ writePaths t2 := by
  simp [writePaths, List.filterMap_append]

theorem writePaths_singleton_raster (sp op : String) (w h : Nat) :
    writePaths [Event.rasterCall sp op w h] = [] := by
  simp [writePaths]

theorem rasterCallsOf_printLine_cons (m : String) (t : List Event) :
    rasterCallsOf (Event.printLine m :: t) = rasterCallsOf t := by
  simp [rasterCallsOf]

theorem rasterCallsOf_append (t1 t2 : List Event) :
    rasterCallsOf (t1 ++ t2) = rasterCallsOf t1 ++ rasterCallsOf t2 := by
  simp [rasterCallsOf, List.filterMap_append]

theorem rasterCallsOf_singleton_raster (sp op : String) (w h : Nat) :
    rasterCallsOf [Event.rasterCall sp op w h] = [(op, w)] := by
  simp [rasterCallsOf]

theorem icoCallsOf_printLine_cons (m : String) (t : List Event) :
    icoCallsOf (Event.printLine m :: t) = icoCallsOf t := by
  simp [icoCallsOf]

theorem icoCallsOf_append (t1 t2 : List Event) :
    icoCallsOf (t1 ++ t2) = icoCallsOf t1 ++ icoCallsOf t2 := by
  simp [icoCallsOf, List.filterMap_append]

theorem icoCallsOf_singleton_raster (sp op : String) (w h : Nat) :
    icoCallsOf [Event.rasterCall sp op w h] = [] := by
  simp [icoCallsOf]

/-- Characterization of the size loop when every entry of `pre` rasterizes
successfully and the next entry fails: the loop aborts right after the failing
rasterizer call, with `pre`'s writes applied and no write for the failing
entry. -/
theorem genLoop_fail (libs : Libs) (c : List Nat) (fn : String) (sz : Nat)
    (post : List (String × Nat))
    (hfail : libs.svg2png c sz sz = none) :
    ∀ (pre : List (String × Nat)) (s : St),
      fsRead s.fs "icon.svg" = some (FileData.svg c) →
      (∀ q ∈ pre, ¬ q.1 = "icon.svg") →
      (∀ q ∈ pre, (libs.svg2png c q.2 q.2).isSome = true) →
      genLoop libs s (pre ++ (fn, sz) :: post) =
        (⟨pre.foldl (entryWrite libs c) s.fs,
          s.trace ++ (pre.map (entryEvents libs c)).flatten
            ++ [Event.rasterCall "icon.svg" fn sz sz]⟩, false) := by
  intro pre
  induction pre with
  | nil =>
      intro s hsvg _ _
      simp [genLoop, generate_png_from_svg, hsvg, hfail]
  | cons q rest ih =>
      intro s hsvg hni hok
      obtain ⟨a, b⟩ := q
      obtain ⟨p, hp⟩ :=
        Option.isSome_iff_exists.mp (hok (a, b) (List.mem_cons_self _ _))
      have ha : ¬ a = "icon.svg" := hni (a, b) (List.mem_cons_self _ _)
      have hstep : generate_png_from_svg libs s "icon.svg" a b =
          (⟨fsWrite s.fs a (FileData.png p),
            s.trace ++ [Event.rasterCall "icon.svg" a b b,
              Event.fileWrite a (FileData.png p),
              Event.printLine (pngMsg a b)]⟩, true) := by
        simp [generate_png_from_svg, wr, pr, hsvg, hp]
      have hsvg' : fsRead (fsWrite s.fs a (FileData.png p)) "icon.svg" =
          some (FileData.svg c) := by
        rw [fsRead_fsWrite_other _ _ _ _ (fun hh => ha hh.symm), hsvg]
      have hrec := ih ⟨fsWrite s.fs a (FileData.png p),
          s.trace ++ [Event.rasterCall "icon.svg" a b b,
            Event.fileWrite a (FileData.png p), Event.printLine (pngMsg a b)]⟩
        hsvg' (fun r hr => hni r (List.mem_cons_of_mem _ hr))
        (fun r hr => hok r (List.mem_cons_of_mem _ hr))
      rw [List.cons_append]
      have hone : genLoop libs s ((a, b) :: (rest ++ (fn, sz) :: post)) =
          genLoop libs ⟨fsWrite s.fs a (FileData.png p),
            s.trace ++ [Event.rasterCall "icon.svg" a b b,
              Event.fileWrite a (FileData.png p),
              Event.printLine (pngMsg a b)]⟩ (rest ++ (fn, sz) :: post) := by
        simp [genLoop, hstep]
      rw [hone, hrec]
      simp [entryWrite, entryEvents, hp]

theorem writePaths_entry_flatten (libs : Libs) (c : List Nat) :
    ∀ l : List (String × Nat),
      (∀ q ∈ l, (libs.svg2png c q.2 q.2).isSome = true) →
      writePaths ((l.map (entryEvents libs c)).flatten) = l.map Prod.fst := by
  intro l
  induction l with
  | nil => intro _; simp [writePaths]
  | cons q rest ih =>
      intro hok
      obtain ⟨a, b⟩ := q
      obtain ⟨p, hp⟩ :=
        Option.isSome_iff_exists.mp (hok (a, b) (List.mem_cons_self _ _))
      have hrest := ih (fun r hr => hok r (List.mem_cons_of_mem _ hr))
      rw [List.map_cons, List.flatten_cons, writePaths_append, hrest]
      simp [entryEvents, hp, writePaths]

theorem rasterCallsOf_entry_flatten (libs : Libs) (c : List Nat) :
    ∀ l : List (String × Nat),
      rasterCallsOf ((l.map (entryEvents libs c)).flatten) = l := by
  intro l
  induction l with
  | nil => simp [rasterCallsOf]
  | cons q rest ih =>
      obtain ⟨a, b⟩ := q
      rw [List.map_cons, List.flatten_cons, rasterCallsOf_append, ih]
      cases hp : libs.svg2png c b b with
      | none => simp [entryEvents, hp, rasterCallsOf]
      | some p => simp [entryEvents, hp, rasterCallsOf]

theorem icoCallsOf_entry_flatten (libs : Libs) (c : List Nat) :
    ∀ l : List (String × Nat),
      icoCallsOf ((l.map (entryEvents libs c)).flatten) = [] := by
  intro l
  induction l with
  | nil => simp [icoCallsOf]
  | cons q rest ih =>
      obtain ⟨a, b⟩ := q
      rw [List.map_cons, List.flatten_cons, icoCallsOf_append, ih]
      cases hp : libs.svg2png c b b with
      | none => simp [entryEvents, hp, icoCallsOf]
      | some p => simp [entryEvents, hp, icoCallsOf]

theorem fsRead_foldl_entryWrite (libs : Libs) (c : List Nat) (x : String) :
    ∀ (l : List (String × Nat)) (fs : Fs),
      (∀ q ∈ l, ¬ q.1 = x) →
      fsRead (l.foldl (entryWrite libs c) fs) x = fsRead fs x := by
  intro l
  induction l with
  | nil => intro fs _; rfl
  | cons q rest ih =>
      intro fs hne
      obtain ⟨a, b⟩ := q
      have ha : ¬ a = x := hne (a, b) (List.mem_cons_self _ _)
      rw [List.foldl_cons,
        ih (entryWrite libs c fs (a, b))
          (fun r hr => hne r (List.mem_cons_of_mem _ hr))]
      cases hp : libs.svg2png c b b with
      | none => simp [entryWrite, hp]
      | some p =>
          simp [entryWrite, hp,
            fsRead_fsWrite_other _ _ _ _ (fun hh => ha hh.symm)]

theorem fsExists_fsWrite_self (fs : Fs) (p : String) (d : FileData) :
    fsExists (fsWrite fs p d) p = true := by
  simp [fsExists, fsRead_fsWrite_self]

theorem fsExists_fsWrite_mono (fs : Fs) (p x : String) (d : FileData)
    (h : fsExists fs x = true) : fsExists (fsWrite fs p d) x = true := by
  by_cases hx : x = p
  · subst hx; exact fsExists_fsWrite_self fs x d
  · rw [fsExists, fsRead_fsWrite_other _ _ _ _ hx]; exact h

theorem fsExists_foldl_entryWrite_mono (libs : Libs) (c : List Nat)
    (x : String) :
    ∀ (l : List (String × Nat)) (fs : Fs),
      fsExists fs x = true →
      fsExists (l.foldl (entryWrite libs c) fs) x = true := by
  intro l
  induction l with
  | nil => intro fs h; exact h
  | cons q rest ih =>
      intro fs h
      rw [List.foldl_cons]
      apply ih
      obtain ⟨a, b⟩ := q
      cases hp : libs.svg2png c b b with
      | none => simpa [entryWrite, hp] using h
      | some p => simp [entryWrite, hp, fsExists_fsWrite_mono _ _ _ _ h]

theorem fsExists_foldl_entryWrite_mem (libs : Libs) (c : List Nat) :
    ∀ (l : List (String × Nat)) (fs : Fs),
      (∀ q ∈ l, (libs.svg2png c q.2 q.2).isSome = true) →
      ∀ q ∈ l, fsExists (l.foldl (entryWrite libs c) fs) q.1 = true := by
  intro l
  induction l with
  | nil => intro fs _ q hq; cases hq
  | cons r rest ih =>
      intro fs hok q hq
      rw [List.foldl_cons]
      rcases List.mem_cons.mp hq with hq | hq
      · subst hq
        obtain ⟨p, hp⟩ :=
          Option.isSome_iff_exists.mp (hok q (List.mem_cons_self _ _))
        apply fsExists_foldl_entryWrite_mono
        obtain ⟨a, b⟩ := q
        simp [entryWrite, hp, fsExists_fsWrite_self]
      · exact ih (entryWrite libs c fs r)
          (fun u hu => hok u (List.mem_cons_of_mem _ hu)) q hq

/-- C7: if `icon.svg` exists, the entries of `pre` rasterize successfully and
the next table entry `(fn, sz)` fails (e.g. malformed SVG), the run terminates
with an error, writes no file for the failing size, keeps the files written by
earlier iterations on disk, performs no rasterization for later entries, and
never reaches the ICO packing. -/
theorem C7_failure_abort (libs : Libs) (fs0 : Fs) (c : List Nat)
    (pre : List (String × Nat)) (fn : String) (sz : Nat)
    (post : List (String × Nat))
    (hsplit : SIZES = pre ++ (fn, sz) :: post)
    (hsvg : fsRead fs0 "icon.svg" = some (FileData.svg c))
    (hok : ∀ q ∈ pre, (libs.svg2png c q.2 q.2).isSome = true)
    (hfail : libs.svg2png c sz sz = none) :
    (main libs ⟨fs0, []⟩).2 = false ∧
    ¬ fn ∈ writePaths (main libs ⟨fs0, []⟩).1.trace ∧
    fsRead (main libs ⟨fs0, []⟩).1.fs fn = fsRead fs0 fn ∧
    (∀ q ∈ pre, fsExists (main libs ⟨fs0, []⟩).1.fs q.1 = true) ∧
    rasterCallsOf (main libs ⟨fs0, []⟩).1.trace = pre ++ [(fn, sz)] ∧
    icoCallsOf (main libs ⟨fs0, []⟩).1.trace = [] := by
  have hni : ∀ q ∈ pre, ¬ q.1 = "icon.svg" := by
    have hall : ∀ q ∈ SIZES, ¬ q.1 = "icon.svg" := by decide
    intro q hq
    exact hall q (by rw [hsplit]; exact List.mem_append_left _ hq)
  have hfnpre : ¬ fn ∈ pre.map Prod.fst := by
    have hnd : (SIZES.map Prod.fst).Nodup := by decide
    have hmap : SIZES.map Prod.fst =
        pre.map Prod.fst ++ fn :: post.map Prod.fst := by
      rw [hsplit]; simp
    rw [hmap] at hnd
    rcases List.nodup_append.mp hnd with ⟨_, _, hdis⟩
    exact fun hmem => hdis hmem (List.mem_cons_self _ _)
  have hgl := genLoop_fail libs c fn sz post hfail pre
    ⟨fs0, [Event.printLine "Generating icons..."]⟩ hsvg hni hok
  have hrun : main libs ⟨fs0, []⟩ =
      (⟨pre.foldl (entryWrite libs c) fs0,
        Event.printLine "Generating icons..." ::
          ((pre.map (entryEvents libs c)).flatten
            ++ [Event.rasterCall "icon.svg" fn sz sz])⟩, false) := by
    simp only [main, pr]
    rw [hsplit]
    simp [fsExists, hsvg, hgl]
  rw [hrun]
  have hnf : ∀ q ∈ pre, ¬ q.1 = fn := fun q hq he =>
    hfnpre (he ▸ List.mem_map_of_mem Prod.fst hq)
  refine ⟨rfl, ?_, ?_, ?_, ?_, ?_⟩
  · rw [writePaths_printLine_cons, writePaths_append,
      writePaths_entry_flatten libs c pre hok, writePaths_singleton_raster]
    simpa using hfnpre
  · exact fsRead_foldl_entryWrite libs c fn pre fs0 hnf
  · exact fun q hq => fsExists_foldl_entryWrite_mem libs c pre fs0 hok q hq
  · rw [rasterCallsOf_printLine_cons, rasterCallsOf_append,
      rasterCallsOf_entry_flatten libs c pre, rasterCallsOf_singleton_raster]
  · rw [icoCallsOf_printLine_cons, icoCallsOf_append,
      icoCallsOf_entry_flatten libs c pre, icoCallsOf_singleton_raster]
    rfl

theorem C7_witness :
    (main flakyLibs ⟨[("icon.svg", FileData.svg [5])], []⟩).2 = false :=
  (C7_failure_abort flakyLibs [("icon.svg", FileData.svg [5])] [5]
    [("favicon-16x16.png", 16), ("favicon-32x32.png", 32)]
    "apple-touch-icon.png" 180
    [("android-chrome-192x192.png", 192), ("android-chrome-512x512.png", 512)]
    rfl rfl (by decide) rfl).1

/-- Environment for the import-time bootstrap: whether the imaging libraries
are importable at startup, the exit code the package-installer subprocess
would return (discarded by the script), and whether the re-import after the
install attempt succeeds. -/
structure PyEnv where
  availBefore : Bool
  installExit : Nat
  availAfter : Bool
deriving DecidableEq, Repr

/-- Events of the bootstrap: a printed line or a subprocess invocation of the
package installer. -/
inductive BootEvent where
  | printMsg (msg : String)
  | installCall (cmd : String)
deriving DecidableEq, Repr

/-- The `try: import ... except ImportError:` block at the top of the script:
on import failure it prints a notice, shells out to `pip3 install` exactly
once (ignoring the subprocess result), and imports again; the Bool is whether
the imports are in place afterwards (`false` = uncaught ImportError). -/
def importLibs (env : PyEnv) : List BootEvent × Bool :=
  if env.availBefore then ([], true)
  else
    ([BootEvent.printMsg "Installing required packages...",
      BootEvent.installCall "pip3 install cairosvg pillow"],
     env.availAfter)

/-- Number of package-installer invocations in a bootstrap trace. -/
def installCount (t : List BootEvent) : Nat :=
  t.countP fun e =>
    match e with
    | BootEvent.installCall _ => true
    | _ => false

/-- C8: when the imaging libraries are missing at startup, the script makes
exactly one install attempt; the outcome is independent of the installer's
exit status (no success verification), and the run succeeds exactly when the
re-import does — a failing re-import propagates as the result `false` with no
further install attempts or handling. -/
theorem C8_bootstrap (env : PyEnv) (h : env.availBefore = false) :
    installCount (importLibs env).1 = 1 ∧
    (∀ n, importLibs ⟨env.availBefore, n, env.availAfter⟩ = importLibs env) ∧
    (importLibs env).2 = env.availAfter := by
  refine ⟨?_, ?_, ?_⟩
  · simp [importLibs, installCount, h, List.countP_cons]
  · intro n; simp [importLibs, h]
  · simp [importLibs, h]

theorem C8_witness :
    installCount (importLibs ⟨false, 1, false⟩).1 = 1 ∧
    (importLibs ⟨false, 1, false⟩).2 = false :=
  ⟨(C8_bootstrap ⟨false, 1, false⟩ rfl).1,
   (C8_bootstrap ⟨false, 1, false⟩ rfl).2.2⟩

end GenIcons
